import Mathlib

/-!
Shallow embedding of the live-data ingestion and threshold-alerting pipeline
of the ECG dashboard: the alert evaluator `analyzeHealthData`, the WebSocket
connection manager hook `useWebSocket`, and the bounded rolling ECG history
buffer kept by the monitor view.  Numeric reading fields (all JavaScript
numbers used only in order comparisons against exactly representable
constants) are embedded as rationals.
-/

namespace ECG

/-- `HealthAlert.type` values (types/index.ts). -/
inductive AlertType
  | tachycardia
  | bradycardia
  | fever
  | normal
deriving DecidableEq, Repr

/-- `HealthAlert.severity` values (types/index.ts). -/
inductive Severity
  | low
  | medium
  | high
deriving DecidableEq, Repr

/-- The `ECGReading` interface (types/index.ts). -/
structure ECGReading where
  id : Option String
  ecg : Rat
  bpm : Rat
  rr : Rat
  hrv : Rat
  temperature : Rat
  timestamp : String
  patientCode : Option String
deriving DecidableEq, Repr

/-- The `HealthAlert` interface (types/index.ts). -/
structure HealthAlert where
  type : AlertType
  message : String
  severity : Severity
deriving DecidableEq, Repr

/-- The tachycardia alert object pushed by `analyzeHealthData`. -/
def tachyAlert (reading : ECGReading) : HealthAlert :=
  { type := AlertType.tachycardia
    message := "High heart rate detected: " ++ toString reading.bpm
      ++ " BPM (Normal: 60-100)"
    severity := if reading.bpm > 120 then Severity.high else Severity.medium }

/-- The bradycardia alert object pushed by `analyzeHealthData`. -/
def bradyAlert (reading : ECGReading) : HealthAlert :=
  { type := AlertType.bradycardia
    message := "Low heart rate detected: " ++ toString reading.bpm
      ++ " BPM (Normal: 60-100)"
    severity := if reading.bpm < 40 then Severity.high else Severity.medium }

/-- The fever alert object pushed by `analyzeHealthData`. -/
def feverAlert (reading : ECGReading) : HealthAlert :=
  { type := AlertType.fever
    message := "Elevated temperature: " ++ toString reading.temperature
      ++ "°C (Normal: <37.5°C)"
    severity := if reading.temperature > 39 then Severity.high else Severity.medium }

/-- The normal-status alert object pushed by `analyzeHealthData`. -/
def normalAlert : HealthAlert :=
  { type := AlertType.normal
    message := "All vital signs within normal range"
    severity := Severity.low }

/-- `analyzeHealthData` (utils/healthAlerts.ts): starts from an empty alert
list, appends a tachycardia alert when `bpm > 100`, a bradycardia alert when
`bpm < 60`, a fever alert when `temperature > 37.5`, and finally, when the
accumulated list is empty, returns the single normal-status alert. -/
def analyzeHealthData (reading : ECGReading) : List HealthAlert :=
  let alerts : List HealthAlert := []
  let alerts := if reading.bpm > 100 then alerts ++ [tachyAlert reading] else alerts
  let alerts := if reading.bpm < 60 then alerts ++ [bradyAlert reading] else alerts
  let alerts :=
    if reading.temperature > 37.5 then alerts ++ [feverAlert reading] else alerts
  if alerts.length = 0 then [normalAlert] else alerts

theorem tachyAlert_type (r : ECGReading) : (tachyAlert r).type = AlertType.tachycardia :=
  rfl

theorem bradyAlert_type (r : ECGReading) : (bradyAlert r).type = AlertType.bradycardia :=
  rfl

theorem feverAlert_type (r : ECGReading) : (feverAlert r).type = AlertType.fever :=
  rfl

theorem normalAlert_type : normalAlert.type = AlertType.normal :=
  rfl

/-- Closed form of `analyzeHealthData`: the three threshold checks run in
order, and the normal alert appears exactly when none of them fired. -/
theorem analyzeHealthData_eq (r : ECGReading) :
    analyzeHealthData r =
      if ¬ r.bpm > 100 ∧ ¬ r.bpm < 60 ∧ ¬ r.temperature > 37.5 then [normalAlert]
      else
        (if r.bpm > 100 then [tachyAlert r] else []) ++
        (if r.bpm < 60 then [bradyAlert r] else []) ++
        (if r.temperature > 37.5 then [feverAlert r] else []) := by
  unfold analyzeHealthData
  split_ifs <;> simp_all

/-- C1: `analyzeHealthData` emits a tachycardia alert iff `bpm > 100`; it is
the only tachycardia alert in the output, its severity is high when
`bpm > 120` and medium when `100 < bpm ≤ 120`. -/
theorem tachycardia_alert_spec (r : ECGReading) :
    ((∃ a ∈ analyzeHealthData r, a.type = AlertType.tachycardia) ↔ r.bpm > 100)
    ∧ (analyzeHealthData r).countP (fun a => decide (a.type = AlertType.tachycardia)) ≤ 1
    ∧ (∀ a ∈ analyzeHealthData r, a.type = AlertType.tachycardia →
        (r.bpm > 120 → a.severity = Severity.high)
        ∧ (r.bpm > 100 ∧ r.bpm ≤ 120 → a.severity = Severity.medium)) := by
  rw [analyzeHealthData_eq]
  by_cases hA : r.bpm > 100 <;> by_cases hB : r.bpm < 60 <;>
    by_cases hC : r.temperature > 37.5 <;>
    first
    | exact absurd (lt_trans hA hB) (by norm_num)
    | (simp only [hA, hB, hC, if_true, if_false, if_pos, if_neg, not_false_iff,
        not_true, false_and, and_false, true_and, and_true, not_lt,
        List.countP_append, List.countP_cons, List.countP_nil, List.append_nil,
        List.nil_append, List.mem_append, List.mem_singleton, List.mem_cons,
        List.not_mem_nil]
       simp_all [tachyAlert, bradyAlert, feverAlert, normalAlert]
       try intros
       try first | rfl | linarith | simp_all)

/-- C2: `analyzeHealthData` emits a bradycardia alert iff `bpm < 60`; it is
the only bradycardia alert in the output, its severity is high when
`bpm < 40` and medium when `40 ≤ bpm < 60` (so medium at bpm exactly 40). -/
theorem bradycardia_alert_spec (r : ECGReading) :
    ((∃ a ∈ analyzeHealthData r, a.type = AlertType.bradycardia) ↔ r.bpm < 60)
    ∧ (analyzeHealthData r).countP (fun a => decide (a.type = AlertType.bradycardia)) ≤ 1
    ∧ (∀ a ∈ analyzeHealthData r, a.type = AlertType.bradycardia →
        (r.bpm < 40 → a.severity = Severity.high)
        ∧ (40 ≤ r.bpm ∧ r.bpm < 60 → a.severity = Severity.medium)) := by
  rw [analyzeHealthData_eq]
  by_cases hA : r.bpm > 100 <;> by_cases hB : r.bpm < 60 <;>
    by_cases hC : r.temperature > 37.5 <;>
    first
    | exact absurd (lt_trans hA hB) (by norm_num)
    | (simp only [hA, hB, hC, if_true, if_false, if_pos, if_neg, not_false_iff,
        not_true, false_and, and_false, true_and, and_true, not_lt,
        List.countP_append, List.countP_cons, List.countP_nil, List.append_nil,
        List.nil_append, List.mem_append, List.mem_singleton, List.mem_cons,
        List.not_mem_nil]
       simp_all [tachyAlert, bradyAlert, feverAlert, normalAlert]
       try intros
       try first | rfl | linarith | simp_all)

/-- C3: `analyzeHealthData` emits a fever alert iff `temperature > 37.5`; it
is the only fever alert in the output, its severity is high when
`temperature > 39` and medium when `37.5 < temperature ≤ 39` (so medium at
temperature exactly 39). -/
theorem fever_alert_spec (r : ECGReading) :
    ((∃ a ∈ analyzeHealthData r, a.type = AlertType.fever) ↔ r.temperature > 37.5)
    ∧ (analyzeHealthData r).countP (fun a => decide (a.type = AlertType.fever)) ≤ 1
    ∧ (∀ a ∈ analyzeHealthData r, a.type = AlertType.fever →
        (r.temperature > 39 → a.severity = Severity.high)
        ∧ (37.5 < r.temperature ∧ r.temperature ≤ 39 → a.severity = Severity.medium)) := by
  rw [analyzeHealthData_eq]
  by_cases hA : r.bpm > 100 <;> by_cases hB : r.bpm < 60 <;>
    by_cases hC : r.temperature > 37.5 <;>
    first
    | exact absurd (lt_trans hA hB) (by norm_num)
    | (simp only [hA, hB, hC, if_true, if_false, if_pos, if_neg, not_false_iff,
        not_true, false_and, and_false, true_and, and_true, not_lt,
        List.countP_append, List.countP_cons, List.countP_nil, List.append_nil,
        List.nil_append, List.mem_append, List.mem_singleton, List.mem_cons,
        List.not_mem_nil]
       simp_all [tachyAlert, bradyAlert, feverAlert, normalAlert]
       try intros
       try first | rfl | linarith | simp_all)

/-- C4: `analyzeHealthData` never returns an empty list; for an in-range
reading (`60 ≤ bpm ≤ 100`, `temperature ≤ 37.5`) it returns exactly the
single normal/low alert; the normal alert appears iff no threshold alert
fired, and it is never combined with any other alert. -/
theorem normal_alert_spec (r : ECGReading) :
    analyzeHealthData r ≠ []
    ∧ (60 ≤ r.bpm ∧ r.bpm ≤ 100 ∧ r.temperature ≤ 37.5 →
        analyzeHealthData r = [normalAlert])
    ∧ normalAlert.type = AlertType.normal
    ∧ normalAlert.severity = Severity.low
    ∧ ((∃ a ∈ analyzeHealthData r, a.type = AlertType.normal) ↔
        ¬ (r.bpm > 100 ∨ r.bpm < 60 ∨ r.temperature > 37.5))
    ∧ (∀ a ∈ analyzeHealthData r, a.type = AlertType.normal →
        analyzeHealthData r = [normalAlert]) := by
  rw [analyzeHealthData_eq]
  by_cases hA : r.bpm > 100 <;> by_cases hB : r.bpm < 60 <;>
    by_cases hC : r.temperature > 37.5 <;>
    first
    | exact absurd (lt_trans hA hB) (by norm_num)
    | (simp only [hA, hB, hC, if_true, if_false, if_pos, if_neg, not_false_iff,
        not_true, false_and, and_false, true_and, and_true, not_lt,
        List.mem_append, List.mem_singleton, List.mem_cons, List.not_mem_nil,
        List.append_nil, List.nil_append]
       simp_all [tachyAlert, bradyAlert, feverAlert, normalAlert]
       try intros
       try first | rfl | linarith | simp_all)

/-- The worked example of the spec: bpm 130, temperature 38.0. -/
def exampleReading : ECGReading :=
  { id := none, ecg := 0, bpm := 130, rr := 0, hrv := 0, temperature := 38,
    timestamp := "", patientCode := none }

/-- C5: in the output of `analyzeHealthData`, every tachycardia or
bradycardia alert precedes every fever alert; on the reading with bpm 130
and temperature 38.0 the output is exactly a high tachycardia alert followed
by a medium fever alert, with no normal alert. -/
theorem alert_order_spec (r : ECGReading) :
    (analyzeHealthData r).Pairwise (fun a b =>
      ¬ (a.type = AlertType.fever ∧
         (b.type = AlertType.tachycardia ∨ b.type = AlertType.bradycardia)))
    ∧ (analyzeHealthData exampleReading).map (fun a => (a.type, a.severity)) =
        [(AlertType.tachycardia, Severity.high), (AlertType.fever, Severity.medium)] := by
  constructor
  · rw [analyzeHealthData_eq]
    by_cases hA : r.bpm > 100 <;> by_cases hB : r.bpm < 60 <;>
      by_cases hC : r.temperature > 37.5 <;>
      first
      | exact absurd (lt_trans hA hB) (by norm_num)
      | (simp only [hA, hB, hC, if_true, if_false, if_pos, if_neg, not_false_iff,
          not_true, false_and, and_false, true_and, and_true, not_lt,
          List.append_nil, List.nil_append]
         simp_all [List.pairwise_cons, tachyAlert, bradyAlert, feverAlert, normalAlert])
  · rw [analyzeHealthData_eq]
    norm_num [exampleReading, tachyAlert, bradyAlert, feverAlert, normalAlert]

/-- C10: the output of `analyzeHealthData` holds at most one alert of each
kind, never both a tachycardia and a bradycardia alert, and has length at
most 3. -/
theorem alert_multiplicity_spec (r : ECGReading) :
    ((analyzeHealthData r).map (fun a => a.type)).Nodup
    ∧ ¬ ((∃ a ∈ analyzeHealthData r, a.type = AlertType.tachycardia)
        ∧ (∃ a ∈ analyzeHealthData r, a.type = AlertType.bradycardia))
    ∧ (analyzeHealthData r).length ≤ 3 := by
  refine ⟨?_, ?_, ?_⟩ <;>
    rw [analyzeHealthData_eq] <;>
    by_cases hA : r.bpm > 100 <;> by_cases hB : r.bpm < 60 <;>
      by_cases hC : r.temperature > 37.5 <;>
      first
      | exact absurd (lt_trans hA hB) (by norm_num)
      | (simp only [hA, hB, hC, if_true, if_false, if_pos, if_neg, not_false_iff,
          not_true, false_and, and_false, true_and, and_true, not_lt,
          List.append_nil, List.nil_append, List.mem_append, List.mem_singleton,
          List.mem_cons, List.not_mem_nil]
         simp_all [tachyAlert, bradyAlert, feverAlert, normalAlert, List.nodup_cons]
         try intros
         try first | rfl | linarith | simp_all)

/-! ## Connection manager (hooks/useWebSocket.ts)

The hook holds React state `data`, `connectionStatus`, `error`, plus refs
`ws` (the current WebSocket object) and `reconnectTimeoutRef` (the pending
auto-reconnect timer).  Each handler body is a pure state transformer on
that state; the WebSocket object itself is abstracted to whether a socket
object is currently assigned, with two ghost counters recording the
externally visible actions the claims speak about: how many times
`ws.current.close()` was called and how many reconnect attempts the timer
fired. -/

/-- The `connectionStatus` values of `useWebSocket`. -/
inductive ConnStatus
  | connecting
  | connected
  | disconnected
deriving DecidableEq, Repr

/-- The observable state of one `useWebSocket` instance. -/
structure ManagerState where
  /-- `data`: the latest successfully decoded reading. -/
  data : Option ECGReading
  /-- `connectionStatus`. -/
  connectionStatus : ConnStatus
  /-- `error`: the last error message. -/
  error : Option String
  /-- whether `ws.current` holds a WebSocket object. -/
  hasSocket : Bool
  /-- `reconnectTimeoutRef.current`: the pending timer with its delay in ms. -/
  pendingDelay : Option Nat
  /-- ghost counter: calls made to `ws.current.close()`. -/
  closeCalls : Nat
  /-- ghost counter: `connect()` runs triggered by the reconnect timer. -/
  reconnectAttempts : Nat
deriving DecidableEq, Repr

/-- The synchronous body of `connect()`: set status to connecting, clear the
error, and assign `ws.current = new WebSocket(url)`.  `ctorOk` says whether
the constructor succeeds; on a throw the catch block records the failure.
`connect` touches neither `reconnectTimeoutRef` nor the previous socket:
the old object is overwritten without a `close()` call. -/
def connect (ctorOk : Bool) (s : ManagerState) : ManagerState :=
  let s1 := { s with connectionStatus := ConnStatus.connecting, error := none }
  if ctorOk then { s1 with hasSocket := true }
  else { s1 with error := some "Failed to connect",
                 connectionStatus := ConnStatus.disconnected }

/-- The `onopen` handler. -/
def onopen (s : ManagerState) : ManagerState :=
  { s with connectionStatus := ConnStatus.connected, error := none }

/-- The `onmessage` handler: `payload` is `JSON.parse(event.data)` as a
Reading, `none` when parsing throws; the catch block only sets the error. -/
def onmessage (payload : Option ECGReading) (s : ManagerState) : ManagerState :=
  match payload with
  | some reading => { s with data := some reading }
  | none => { s with error := some "Invalid data format received" }

/-- The `onclose` handler: status to disconnected and
`reconnectTimeoutRef.current = setTimeout(connect, 3000)`. -/
def onclose (s : ManagerState) : ManagerState :=
  { s with connectionStatus := ConnStatus.disconnected, pendingDelay := some 3000 }

/-- The `onerror` handler. -/
def onerror (s : ManagerState) : ManagerState :=
  { s with error := some "Connection error",
           connectionStatus := ConnStatus.disconnected }

/-- The scheduled timer firing: when a timer is pending it runs `connect()`
once (counted in `reconnectAttempts`) and is no longer pending; with no
pending timer nothing happens. -/
def timerFire (ctorOk : Bool) (s : ManagerState) : ManagerState :=
  match s.pendingDelay with
  | none => s
  | some _ =>
      connect ctorOk
        { s with pendingDelay := none,
                 reconnectAttempts := s.reconnectAttempts + 1 }

/-- The `useEffect` cleanup (teardown): `clearTimeout` on a pending timer
and `ws.current.close()` on an assigned socket. -/
def cleanup (s : ManagerState) : ManagerState :=
  { s with pendingDelay := none,
           closeCalls := s.closeCalls + (if s.hasSocket then 1 else 0) }

/-! ## Monitor view (components/ECGMonitor.tsx)

The monitor consumes the hook's `data`: whenever a new reading arrives its
effect appends `{...data, time}` to `ecgHistory` keeping the last 50
entries, and replaces `alerts` with `analyzeHealthData data`.  A decode
failure never reaches this effect because `setData` is not called. -/

/-- `Array.prototype.slice(-n)`: the last `n` elements (the whole list when
it is shorter than `n`). -/
def sliceLast (n : Nat) (l : List α) : List α :=
  l.drop (l.length - n)

/-- The history update `[...prev, newReading].slice(-50)`. -/
def pushReading (prev : List (ECGReading × String)) (r : ECGReading)
    (time : String) : List (ECGReading × String) :=
  sliceLast 50 (prev ++ [(r, time)])

/-- The monitor's observable state: the hook state plus the chart history
and the alert list. -/
structure MonitorState where
  mgr : ManagerState
  ecgHistory : List (ECGReading × String)
  alerts : List HealthAlert
deriving Repr

/-- One inbound message as the monitor observes it: the `onmessage` handler
composed with the monitor's data effect.  On decode success the reading is
stored, appended to the history and its alerts recomputed; on decode
failure only the error flag changes. -/
def onMonitorMessage (time : String) (payload : Option ECGReading)
    (s : MonitorState) : MonitorState :=
  match payload with
  | some reading =>
      { mgr := onmessage (some reading) s.mgr
        ecgHistory := pushReading s.ecgHistory reading time
        alerts := analyzeHealthData reading }
  | none => { s with mgr := onmessage none s.mgr }

/-- A manager state with an open socket and a pending scheduled reconnect
timer, as left behind by a close event. -/
def pendingState : ManagerState :=
  { data := none, connectionStatus := ConnStatus.disconnected, error := none,
    hasSocket := true, pendingDelay := some 3000, closeCalls := 0,
    reconnectAttempts := 0 }

/-- C6 counterexample: invoked on a state with a pending scheduled reconnect
and an assigned socket, the manual reconnect operation (`reconnect`, which is
`connect`) leaves the pending timer armed and never calls `close()` on the
existing connection, contradicting the claim that it cancels the timer and
discards the connection. -/
theorem reconnect_no_cancel_cex :
    pendingState.pendingDelay = some 3000
    ∧ pendingState.hasSocket = true
    ∧ (connect true pendingState).pendingDelay ≠ none
    ∧ (connect true pendingState).closeCalls = pendingState.closeCalls := by
  refine ⟨rfl, rfl, ?_, rfl⟩
  simp [connect, pendingState]

/-- C6 (amended): the manual reconnect operation re-runs the open sequence,
transitioning the connection state to connecting first and clearing the
error, and installs a fresh connection object over the existing reference;
it does not cancel a pending scheduled reconnect timer and does not close
the existing connection. -/
theorem reconnect_spec (s : ManagerState) (ctorOk : Bool) :
    (connect true s).connectionStatus = ConnStatus.connecting
    ∧ (connect true s).error = none
    ∧ (connect true s).hasSocket = true
    ∧ (connect ctorOk s).pendingDelay = s.pendingDelay
    ∧ (connect ctorOk s).closeCalls = s.closeCalls := by
  cases ctorOk <;> simp [connect]

/-- C7: a close event sets the state to disconnected and schedules exactly
one reconnect timer with a fixed 3000 ms delay; teardown before the delay
elapses cancels it, after which the timer firing performs zero reconnect
attempts; without teardown the timer firing performs exactly one reconnect
attempt (a second firing does nothing). -/
theorem close_reconnect_spec (s : ManagerState) (ctorOk : Bool) :
    (onclose s).connectionStatus = ConnStatus.disconnected
    ∧ (onclose s).pendingDelay = some 3000
    ∧ (cleanup (onclose s)).pendingDelay = none
    ∧ (timerFire ctorOk (cleanup (onclose s))).reconnectAttempts = s.reconnectAttempts
    ∧ (timerFire ctorOk (onclose s)).reconnectAttempts = s.reconnectAttempts + 1
    ∧ (∀ ctorOk2 : Bool,
        (timerFire ctorOk2 (timerFire ctorOk (onclose s))).reconnectAttempts
          = s.reconnectAttempts + 1) := by
  cases ctorOk <;> simp [onclose, cleanup, timerFire, connect]

/-- C8: an inbound message that fails to decode as a Reading sets the error
flag to the invalid-data-format message and changes nothing else the caller
observes: the last good reading, the connection state, the socket and timer
references, the alert list and the chart history are all unchanged, and the
handler returns normally (it is a total function; the decode failure is
absorbed by the catch block). -/
theorem decode_failure_frame_spec (s : MonitorState) (time : String) :
    (onMonitorMessage time none s).mgr.error = some "Invalid data format received"
    ∧ (onMonitorMessage time none s).mgr.data = s.mgr.data
    ∧ (onMonitorMessage time none s).mgr.connectionStatus = s.mgr.connectionStatus
    ∧ (onMonitorMessage time none s).mgr.hasSocket = s.mgr.hasSocket
    ∧ (onMonitorMessage time none s).mgr.pendingDelay = s.mgr.pendingDelay
    ∧ (onMonitorMessage time none s).alerts = s.alerts
    ∧ (onMonitorMessage time none s).ecgHistory = s.ecgHistory := by
  simp [onMonitorMessage, onmessage]

/-- C9: the rolling chart history never exceeds 50 entries; appending to a
buffer holding exactly 50 evicts exactly the oldest entry; and the result is
always a suffix of the old buffer followed by the new entry, so arrival
order is preserved. -/
theorem history_bound_spec (prev : List (ECGReading × String)) (r : ECGReading)
    (time : String) :
    (pushReading prev r time).length ≤ 50
    ∧ (prev.length = 50 → pushReading prev r time = prev.tail ++ [(r, time)])
    ∧ (pushReading prev r time).IsSuffix (prev ++ [(r, time)]) := by
  refine ⟨?_, fun h => ?_, List.drop_suffix _ _⟩
  · simp only [pushReading, sliceLast, List.length_drop, List.length_append,
      List.length_singleton]
    omega
  · have h1 : (prev ++ [(r, time)]).length - 50 = 1 := by
      simp [h]
    rw [pushReading, sliceLast, h1,
      List.drop_append_of_le_length (by simp [h]), List.drop_one]

end ECG
